import Mathlib

/-!
Verification of the FosterLinks client-side router
(`src/components/AppRouter.tsx`): the role-gate component `ProtectedRoute`
and the declarative route table of `AppRouter`.

The gate reads an authentication signal `{currentUser, userRole, loading}`
from an auth context and chooses among three outcomes: a loading
placeholder, a redirect (`<Navigate to=... />`), or rendering the wrapped
children. The route table maps URL path patterns to elements, some public,
some wrapped in the gate.
-/

namespace FosterLinks

/-- The authentication signal consumed by the gate, as destructured in
`const { currentUser, userRole, loading } = useAuth()`. `currentUser` is a
user object or null (modelled as an optional id: any present object is
truthy in JavaScript); `userRole` is a string or null, where the empty
string is falsy in JavaScript and is therefore kept observable here. -/
structure AuthSignal where
  currentUser : Option String
  userRole : Option String
  loading : Bool
deriving DecidableEq, Repr

/-- The three outcome shapes a `ProtectedRoute` evaluation can return:
the inline loading placeholder, `<Navigate to={to} />`, or the wrapped
`children`. -/
inductive GateResult where
  | loadingPlaceholder : GateResult
  | redirect (target : String) : GateResult
  | children : GateResult
deriving DecidableEq, Repr

/-- The JavaScript condition `userRole && allowedRoles.includes(userRole)`
from line 76 of `AppRouter.tsx`: `userRole` must be truthy (non-null and
non-empty) before membership is tested. -/
def roleAllowed (userRole : Option String) (allowedRoles : List String) : Bool :=
  match userRole with
  | none => false
  | some r => r != "" && allowedRoles.contains r

/-- The body of the `ProtectedRoute` component (`AppRouter.tsx` lines
44-84): if `loading`, return the placeholder; else if `!currentUser`,
redirect to `/login`; else if the role check passes, render children;
else redirect to `/unauthorized`. Console logging is the only side effect
in the source and is dropped. -/
def ProtectedRoute (allowedRoles : List String) (sig : AuthSignal) : GateResult :=
  if sig.loading then
    GateResult.loadingPlaceholder
  else if sig.currentUser.isNone then
    GateResult.redirect "/login"
  else if roleAllowed sig.userRole allowedRoles then
    GateResult.children
  else
    GateResult.redirect "/unauthorized"

/-- The page views lazily loaded at the top of `AppRouter.tsx`. -/
inductive View where
  | Login | Register | Dashboard | YouthProfiles | YouthDetail
  | FosterParents | Reports | UserManagement | MedicationLog
  | ThemeSettings | AgencySettings | NotFound | Unauthorized
deriving DecidableEq, Repr

/-- The element a `<Route>` carries: a public view, an unconditional
`<Navigate to=... />`, or a view wrapped in `<ProtectedRoute allowedRoles=...>`. -/
inductive RouteElement where
  | publicView (v : View) : RouteElement
  | navigate (target : String) : RouteElement
  | protectedView (allowedRoles : List String) (v : View) : RouteElement
deriving DecidableEq, Repr

/-- One `<Route path=... element=... />` row. -/
structure RouteEntry where
  path : String
  element : RouteElement
deriving DecidableEq, Repr

/-- The route table of `AppRouter` (`AppRouter.tsx` lines 93-174), in
source order. -/
def routeTable : List RouteEntry :=
  [ ⟨"/login", RouteElement.publicView View.Login⟩,
    ⟨"/register", RouteElement.publicView View.Register⟩,
    ⟨"/", RouteElement.protectedView ["admin", "worker", "foster_parent"] View.Dashboard⟩,
    ⟨"", RouteElement.navigate "/login"⟩,
    ⟨"/user-management", RouteElement.protectedView ["admin"] View.UserManagement⟩,
    ⟨"/reports", RouteElement.protectedView ["admin", "worker"] View.Reports⟩,
    ⟨"/reports-overview", RouteElement.protectedView ["admin", "worker"] View.Reports⟩,
    ⟨"/youth-profiles", RouteElement.protectedView ["admin", "worker"] View.YouthProfiles⟩,
    ⟨"/youth-profiles/:id", RouteElement.protectedView ["admin", "worker", "foster_parent"] View.YouthDetail⟩,
    ⟨"/foster-parents", RouteElement.protectedView ["admin", "worker"] View.FosterParents⟩,
    ⟨"/my-youth", RouteElement.protectedView ["foster_parent"] View.YouthProfiles⟩,
    ⟨"/medication-logs/:youthId", RouteElement.protectedView ["admin", "worker", "foster_parent"] View.MedicationLog⟩,
    ⟨"/theme-settings", RouteElement.protectedView ["admin", "worker", "foster_parent"] View.ThemeSettings⟩,
    ⟨"/agency-settings", RouteElement.protectedView ["admin"] View.AgencySettings⟩,
    ⟨"/unauthorized", RouteElement.publicView View.Unauthorized⟩,
    ⟨"*", RouteElement.publicView View.NotFound⟩ ]

/-- Split a string into segments at every slash character. -/
def splitAux : List Char → List Char → List String
  | [], acc => [String.mk acc.reverse]
  | c :: cs, acc =>
      if c = '/' then String.mk acc.reverse :: splitAux cs []
      else splitAux cs (c :: acc)

/-- Path segments of a URL path or pattern: `""` gives `[""]`, `"/"` gives
`["", ""]`, `"/reports"` gives `["", "reports"]`, so the empty path and the
root path stay distinct rows, matching the spec's path table. -/
def splitPath (s : String) : List String := splitAux s.data []

/-- A pattern segment such as `:id` is a dynamic parameter. -/
def isParamSeg (s : String) : Bool := s.data.head? = some ':'

/-- Segment-wise pattern matching: a parameter segment matches any
non-empty path segment, a static segment matches only itself, and the
segment counts must agree. -/
def segsMatch : List String → List String → Bool
  | [], [] => true
  | p :: ps, s :: ss =>
      (if isParamSeg p then s != "" else p == s) && segsMatch ps ss
  | _, _ => false

/-- Modelled from the spec: route matching itself is performed by the
react-router library, which is not part of this repository. The spec's
path table (section 6) reads each pattern as an exact path with `:param`
segments standing for single dynamic segments and `*` as a catch-all
matching every path, with `""` and `"/"` as distinct rows. -/
def matchesPattern (pattern path : String) : Bool :=
  if pattern == "*" then true
  else segsMatch (splitPath pattern) (splitPath path)

/-- Modelled from the spec: route selection (react-router, external to the
repository) picks the matching row of the table; the table's static
patterns are pairwise distinct and the catch-all is last, so first-match
order realises the spec's path table. -/
def selectRoute (path : String) : Option RouteEntry :=
  routeTable.find? (fun e => matchesPattern e.path path)

/-- The outcome of rendering a selected route for a given signal. -/
inductive Outcome where
  | loadingPlaceholder : Outcome
  | redirect (target : String) : Outcome
  | view (v : View) : Outcome
deriving DecidableEq, Repr

/-- Render a route element under an authentication signal. -/
def renderElement : RouteElement → AuthSignal → Outcome
  | RouteElement.publicView v, _ => Outcome.view v
  | RouteElement.navigate t, _ => Outcome.redirect t
  | RouteElement.protectedView roles v, sig =>
      match ProtectedRoute roles sig with
      | GateResult.loadingPlaceholder => Outcome.loadingPlaceholder
      | GateResult.redirect t => Outcome.redirect t
      | GateResult.children => Outcome.view v

/-- Resolve a requested path against the route table under a signal. The
`none` branch is unreachable because the catch-all `*` row matches every
path. -/
def resolve (path : String) (sig : AuthSignal) : Outcome :=
  match selectRoute path with
  | some e => renderElement e.element sig
  | none => Outcome.view View.NotFound

/-- Modelled from the spec: the `AuthContext` producing the signal is not
in the repository; per the spec's data model (section 3), `userRole` is
"one of a small fixed set of role tags (e.g., administrator, caseworker,
foster-parent), or absent". The tags in use are those of the route table. -/
def roleTags : List String := ["admin", "worker", "foster_parent"]

/-- Modelled from the spec: a signal whose `userRole` is absent or one of
the fixed role tags. -/
def validSignal (sig : AuthSignal) : Bool :=
  match sig.userRole with
  | none => true
  | some r => roleTags.contains r


/-! ## Helper lemmas -/

theorem currentUser_isNone_false (sig : AuthSignal) (hu : sig.currentUser.isSome = true) :
    sig.currentUser.isNone = false := by
  cases h : sig.currentUser <;> simp_all

theorem find?_last_of_all_false {α : Type} (p : α → Bool) (l : List α) (a : α)
    (h : ∀ x ∈ l, p x = false) (ha : p a = true) :
    (l ++ [a]).find? p = some a := by
  induction l with
  | nil => simp [List.find?, ha]
  | cons x xs ih =>
      have hx := h x (by simp)
      rw [List.cons_append, List.find?_cons_of_neg _ (by simp [hx])]
      exact ih fun y hy => h y (by simp [hy])

/-! ## Claims -/

/-- C1: for every permitted-roles list `R` and every signal (with `userRole`
drawn from the spec's role-tag domain) that is resolved and authenticated,
the gate renders the wrapped children iff the signal's `userRole` is a
member of `R`; in every other resolved, authenticated case it returns a
redirect. -/
theorem gate_grants_iff_role_member (R : List String) (sig : AuthSignal)
    (hv : validSignal sig = true) (hl : sig.loading = false)
    (hu : sig.currentUser.isSome = true) :
    (ProtectedRoute R sig = GateResult.children ↔
      ∃ r, sig.userRole = some r ∧ r ∈ R) ∧
    (ProtectedRoute R sig ≠ GateResult.children →
      ∃ t, ProtectedRoute R sig = GateResult.redirect t) := by
  have hn := currentUser_isNone_false sig hu
  constructor
  · cases hr : sig.userRole with
    | none => simp [ProtectedRoute, hl, hn, roleAllowed, hr]
    | some r =>
        have hta : r ∈ roleTags := by
          simp [validSignal, hr] at hv
          simpa using hv
        have hne : r ≠ "" := by
          simp [roleTags] at hta
          rcases hta with rfl | rfl | rfl <;> decide
        by_cases hmem : r ∈ R <;>
          simp [ProtectedRoute, hl, hn, roleAllowed, hr, hne, hmem]
  · intro hch
    by_cases hra : roleAllowed sig.userRole R = true
    · exact absurd (by simp [ProtectedRoute, hl, hn, hra]) hch
    · refine ⟨"/unauthorized", ?_⟩
      simp [ProtectedRoute, hl, hn, hra]

/-- C1 witness: the worker role requesting a route permitting admin and
worker is granted access. -/
theorem gate_grants_iff_role_member_witness :
    validSignal ⟨some "u1", some "worker", false⟩ = true ∧
    ((ProtectedRoute ["admin", "worker"] ⟨some "u1", some "worker", false⟩ = GateResult.children ↔
        ∃ r, (AuthSignal.mk (some "u1") (some "worker") false).userRole = some r ∧
          r ∈ ["admin", "worker"]) ∧
      (ProtectedRoute ["admin", "worker"] ⟨some "u1", some "worker", false⟩ ≠ GateResult.children →
        ∃ t, ProtectedRoute ["admin", "worker"] ⟨some "u1", some "worker", false⟩ =
          GateResult.redirect t)) :=
  ⟨by decide, gate_grants_iff_role_member ["admin", "worker"]
    ⟨some "u1", some "worker", false⟩ (by decide) rfl rfl⟩

/-- C2: while the signal is loading, the gate returns the loading
placeholder for every `currentUser`, `userRole` and permitted-roles list;
it never renders the children and never redirects. -/
theorem gate_loading_placeholder (R : List String) (sig : AuthSignal)
    (hl : sig.loading = true) :
    ProtectedRoute R sig = GateResult.loadingPlaceholder ∧
    ProtectedRoute R sig ≠ GateResult.children ∧
    ∀ t, ProtectedRoute R sig ≠ GateResult.redirect t := by
  simp [ProtectedRoute, hl]

/-- C2 witness: a loading signal with a present user and permitted role
still gets the placeholder. -/
theorem gate_loading_placeholder_witness :
    ProtectedRoute ["admin"] ⟨some "u1", some "admin", true⟩ = GateResult.loadingPlaceholder ∧
    ProtectedRoute ["admin"] ⟨some "u1", some "admin", true⟩ ≠ GateResult.children ∧
    ∀ t, ProtectedRoute ["admin"] ⟨some "u1", some "admin", true⟩ ≠ GateResult.redirect t :=
  gate_loading_placeholder ["admin"] ⟨some "u1", some "admin", true⟩ rfl

/-- C3: a resolved signal without an authenticated user always redirects
to `/login`, never to `/unauthorized`, for every permitted-roles list and
every `userRole`. -/
theorem gate_unauthenticated_login_redirect (R : List String) (sig : AuthSignal)
    (hl : sig.loading = false) (hu : sig.currentUser = none) :
    ProtectedRoute R sig = GateResult.redirect "/login" ∧
    ProtectedRoute R sig ≠ GateResult.redirect "/unauthorized" := by
  simp [ProtectedRoute, hl, hu]

/-- C3 witness: a resolved, unauthenticated signal with an admin role
requesting an admin route is still sent to `/login`. -/
theorem gate_unauthenticated_login_redirect_witness :
    ProtectedRoute ["admin"] ⟨none, some "admin", false⟩ = GateResult.redirect "/login" ∧
    ProtectedRoute ["admin"] ⟨none, some "admin", false⟩ ≠ GateResult.redirect "/unauthorized" :=
  gate_unauthenticated_login_redirect ["admin"] ⟨none, some "admin", false⟩ rfl rfl

/-- C4: a resolved, authenticated signal whose present role is not a
member of the permitted-roles list is redirected to `/unauthorized`. -/
theorem gate_wrong_role_unauthorized (R : List String) (r : String) (sig : AuthSignal)
    (hl : sig.loading = false) (hu : sig.currentUser.isSome = true)
    (hr : sig.userRole = some r) (hm : r ∉ R) :
    ProtectedRoute R sig = GateResult.redirect "/unauthorized" := by
  have hn := currentUser_isNone_false sig hu
  simp [ProtectedRoute, hl, hn, roleAllowed, hr, hm]

/-- C4 witness: role `foster_parent` requesting a route permitting only
`admin` and `worker` (the `/reports` roles) is redirected to
`/unauthorized`. -/
theorem gate_wrong_role_unauthorized_witness :
    "foster_parent" ∉ ["admin", "worker"] ∧
    ProtectedRoute ["admin", "worker"] ⟨some "u1", some "foster_parent", false⟩ =
      GateResult.redirect "/unauthorized" :=
  ⟨by decide, gate_wrong_role_unauthorized ["admin", "worker"] "foster_parent"
    ⟨some "u1", some "foster_parent", false⟩ rfl rfl rfl (by decide)⟩

/-- C5: the gate is a deterministic total function of exactly the three
signal fields plus the permitted-roles list: equal fields give equal
results, and the result is always one of the three outcome shapes. -/
theorem gate_deterministic_three_outcomes (R : List String) (sig sig' : AuthSignal)
    (h1 : sig.currentUser = sig'.currentUser) (h2 : sig.userRole = sig'.userRole)
    (h3 : sig.loading = sig'.loading) :
    ProtectedRoute R sig = ProtectedRoute R sig' ∧
    (ProtectedRoute R sig = GateResult.loadingPlaceholder ∨
      (∃ t, ProtectedRoute R sig = GateResult.redirect t) ∨
      ProtectedRoute R sig = GateResult.children) := by
  have hsig : sig = sig' := by
    cases sig; cases sig'; simp_all
  subst hsig
  refine ⟨rfl, ?_⟩
  cases ProtectedRoute R sig
  case loadingPlaceholder => exact Or.inl rfl
  case redirect t => exact Or.inr (Or.inl ⟨t, rfl⟩)
  case children => exact Or.inr (Or.inr rfl)

/-- C5 witness: two field-equal signals built differently give the same
outcome, and the outcome is one of the three shapes. -/
theorem gate_deterministic_three_outcomes_witness :
    ProtectedRoute ["admin"] ⟨some "u1", some "admin", false⟩ =
      ProtectedRoute ["admin"] ⟨some "u1", some "admin", false⟩ ∧
    (ProtectedRoute ["admin"] ⟨some "u1", some "admin", false⟩ = GateResult.loadingPlaceholder ∨
      (∃ t, ProtectedRoute ["admin"] ⟨some "u1", some "admin", false⟩ = GateResult.redirect t) ∨
      ProtectedRoute ["admin"] ⟨some "u1", some "admin", false⟩ = GateResult.children) :=
  gate_deterministic_three_outcomes ["admin"] ⟨some "u1", some "admin", false⟩
    ⟨some "u1", some "admin", false⟩ rfl rfl rfl

/-- C6: the route table maps the empty path to an unconditional redirect
to `/login`, a row distinct from the `/` row (the role-gated Dashboard),
and a request to the empty path yields the redirect for every signal. -/
theorem empty_path_redirects_to_login :
    routeTable[3]? = some ⟨"", RouteElement.navigate "/login"⟩ ∧
    routeTable[2]? = some ⟨"/", RouteElement.protectedView ["admin", "worker", "foster_parent"] View.Dashboard⟩ ∧
    ("" : String) ≠ "/" ∧
    ∀ sig : AuthSignal, resolve "" sig = Outcome.redirect "/login" :=
  ⟨rfl, rfl, by decide, fun _ => rfl⟩

/-- C7: a path matching no non-catch-all row of the route table resolves
to the NotFound view under every authentication signal. -/
theorem unknown_path_not_found (path : String) (sig : AuthSignal)
    (h : ∀ e ∈ routeTable, e.path = "*" ∨ matchesPattern e.path path = false) :
    resolve path sig = Outcome.view View.NotFound := by
  have hsplit : routeTable = routeTable.dropLast ++ [⟨"*", RouteElement.publicView View.NotFound⟩] := by
    decide
  have hstar : ∀ e ∈ routeTable.dropLast, e.path ≠ "*" := by decide
  have hsel : selectRoute path = some ⟨"*", RouteElement.publicView View.NotFound⟩ := by
    unfold selectRoute
    rw [hsplit]
    apply find?_last_of_all_false
    · intro e he
      rcases h e (by rw [hsplit]; exact List.mem_append_left _ he) with h1 | h1
      · exact absurd h1 (hstar e he)
      · exact h1
    · rfl
  simp [resolve, hsel, renderElement]

/-- C7 witness: `/nonexistent-path` renders NotFound even for a loading,
unauthenticated signal. -/
theorem unknown_path_not_found_witness :
    (∀ e ∈ routeTable, e.path = "*" ∨ matchesPattern e.path "/nonexistent-path" = false) ∧
    resolve "/nonexistent-path" ⟨none, none, true⟩ = Outcome.view View.NotFound :=
  ⟨by decide, unknown_path_not_found "/nonexistent-path" ⟨none, none, true⟩ (by decide)⟩

/-- C8: `/reports` and `/reports-overview` are distinct paths whose rows
carry the same permitted roles and the same Reports view, and resolving
either path gives the same outcome for every signal. -/
theorem reports_paths_equivalent :
    ("/reports" : String) ≠ "/reports-overview" ∧
    routeTable[5]? = some ⟨"/reports", RouteElement.protectedView ["admin", "worker"] View.Reports⟩ ∧
    routeTable[6]? = some ⟨"/reports-overview", RouteElement.protectedView ["admin", "worker"] View.Reports⟩ ∧
    ∀ sig : AuthSignal, resolve "/reports" sig = resolve "/reports-overview" sig :=
  ⟨by decide, rfl, rfl, fun _ => rfl⟩

/-- C9: a resolved, authenticated signal whose `userRole` is absent or the
empty string is redirected to `/unauthorized` and never granted access,
even when the permitted-roles list contains the empty string. -/
theorem gate_untruthy_role_unauthorized (R : List String) (sig : AuthSignal)
    (hl : sig.loading = false) (hu : sig.currentUser.isSome = true)
    (hr : sig.userRole = none ∨ sig.userRole = some "") :
    ProtectedRoute R sig = GateResult.redirect "/unauthorized" ∧
    ProtectedRoute R sig ≠ GateResult.children := by
  have hn := currentUser_isNone_false sig hu
  rcases hr with hr | hr <;> simp [ProtectedRoute, hl, hn, roleAllowed, hr]

/-- C9 witness: the empty role is rejected even when the permitted-roles
list contains the empty string. -/
theorem gate_untruthy_role_unauthorized_witness :
    ProtectedRoute [""] ⟨some "u1", some "", false⟩ = GateResult.redirect "/unauthorized" ∧
    ProtectedRoute [""] ⟨some "u1", some "", false⟩ ≠ GateResult.children :=
  gate_untruthy_role_unauthorized [""] ⟨some "u1", some "", false⟩ rfl rfl (Or.inr rfl)

/-- C10: role membership is exact, case-sensitive string equality: a
resolved, authenticated signal with a present role is granted access iff
the role is non-empty and literally equal to a permitted role, and a role
equal to no member of the list is redirected to `/unauthorized`. -/
theorem gate_role_exact_string_equality (R : List String) (r : String) (sig : AuthSignal)
    (hl : sig.loading = false) (hu : sig.currentUser.isSome = true)
    (hr : sig.userRole = some r) :
    (ProtectedRoute R sig = GateResult.children ↔ r ≠ "" ∧ ∃ r' ∈ R, r = r') ∧
    ((∀ r' ∈ R, r ≠ r') → ProtectedRoute R sig = GateResult.redirect "/unauthorized") := by
  have hn := currentUser_isNone_false sig hu
  constructor
  · by_cases hne : r = ""
    · simp [ProtectedRoute, hl, hn, roleAllowed, hr, hne]
    · by_cases hmem : r ∈ R <;>
        simp [ProtectedRoute, hl, hn, roleAllowed, hr, hne, hmem]
  · intro hm
    have hmem : r ∉ R := fun hin => hm r hin rfl
    simp [ProtectedRoute, hl, hn, roleAllowed, hr, hmem]

/-- C10 witness: role `Admin` differing from permitted `admin` only in
case is redirected to `/unauthorized`. -/
theorem gate_role_exact_string_equality_witness :
    ((ProtectedRoute ["admin"] ⟨some "u1", some "Admin", false⟩ = GateResult.children ↔
        "Admin" ≠ "" ∧ ∃ r' ∈ ["admin"], "Admin" = r') ∧
      ((∀ r' ∈ ["admin"], "Admin" ≠ r') →
        ProtectedRoute ["admin"] ⟨some "u1", some "Admin", false⟩ =
          GateResult.redirect "/unauthorized")) ∧
    ProtectedRoute ["admin"] ⟨some "u1", some "Admin", false⟩ =
      GateResult.redirect "/unauthorized" :=
  have h := gate_role_exact_string_equality ["admin"] "Admin"
    ⟨some "u1", some "Admin", false⟩ rfl rfl rfl
  ⟨h, h.2 (by decide)⟩

end FosterLinks
